import Mathlib

/-!
Verification of the WhatsApp session-manager core of the shopify-logistics-app
repository (src/app/whatsapp.server.ts), shallowly embedded in Lean.
-/

namespace WhatsApp

/-- In-memory credential values as seen by the transport library: JSON-like
data in which binary values are genuine byte buffers (Node `Buffer` /
`Uint8Array`), embedded from the value space handled by `serializeForDB` /
`deserializeFromDB` in src/app/whatsapp.server.ts. -/
inductive CVal where
  | vnull : CVal
  | vbool : Bool → CVal
  | vnum : Int → CVal
  | vstr : String → CVal
  | vbin : List Nat → CVal
  | varr : List CVal → CVal
  | vobj : List (String × CVal) → CVal
deriving Repr

/-- Plain JSON values, the persisted form produced by `JSON.parse ∘ JSON.stringify`. -/
inductive JVal where
  | jnull : JVal
  | jbool : Bool → JVal
  | jnum : Int → JVal
  | jstr : String → JVal
  | jarr : List JVal → JVal
  | jobj : List (String × JVal) → JVal
deriving Repr

/-- The `"type"` field name of the serialized-Buffer tag. -/
def typeField : String := "type"

/-- The `"data"` field name of the serialized-Buffer tag. -/
def dataField : String := "data"

/-- The `"Buffer"` tag value. -/
def bufferTag : String := "Buffer"

/-- First-match association-list lookup over credential-object fields
(JS property access on objects built by `JSON.parse`). -/
def lookupC : List (String × CVal) → String → Option CVal
  | [], _ => none
  | (k, v) :: rest, key => if k = key then some v else lookupC rest key

/-- First-match association-list lookup over JSON-object fields. -/
def lookupJ : List (String × JVal) → String → Option JVal
  | [], _ => none
  | (k, v) :: rest, key => if k = key then some v else lookupJ rest key

/-- `value?.type === 'Buffer'`: the field holds the string `"Buffer"`. -/
def isBufferTypeTagged : Option CVal → Bool
  | some (CVal.vstr t) => decide (t = bufferTag)
  | _ => false

/-- `Array.isArray(value?.data)`. -/
def isArrData : Option CVal → Bool
  | some (CVal.varr _) => true
  | _ => false

/-- The replacer condition `value?.type === 'Buffer' && Array.isArray(value?.data)`
of `serializeForDB` (whatsapp.server.ts lines 148-150). -/
def isBufferLikeFields (fs : List (String × CVal)) : Bool :=
  isBufferTypeTagged (lookupC fs typeField) && isArrData (lookupC fs dataField)

mutual

/-- Embeds `serializeForDB` (whatsapp.server.ts lines 141-154): a
`JSON.parse(JSON.stringify(obj, replacer))` pass whose replacer turns every
Buffer / Uint8Array into `\x7b type: 'Buffer', data: [numbers] \x7d` and passes
Buffer-like tagged objects through with only their `type` and `data` fields. -/
def serializeForDB : CVal → JVal
  | CVal.vnull => JVal.jnull
  | CVal.vbool b => JVal.jbool b
  | CVal.vnum n => JVal.jnum n
  | CVal.vstr s => JVal.jstr s
  | CVal.vbin bs =>
      JVal.jobj [(typeField, JVal.jstr bufferTag),
                 (dataField, JVal.jarr (bs.map (fun b => JVal.jnum (Int.ofNat b))))]
  | CVal.varr xs => JVal.jarr (serializeList xs)
  | CVal.vobj fs =>
      if isBufferLikeFields fs then
        JVal.jobj [(typeField, JVal.jstr bufferTag),
                   (dataField, (lookupJ (serializeFields fs) dataField).getD JVal.jnull)]
      else
        JVal.jobj (serializeFields fs)

def serializeList : List CVal → List JVal
  | [] => []
  | x :: xs => serializeForDB x :: serializeList xs

def serializeFields : List (String × CVal) → List (String × JVal)
  | [] => []
  | (k, v) :: fs => (k, serializeForDB v) :: serializeFields fs

end

/-- Models `Buffer.from` element coercion applied by the deserializer's
`Buffer.from(value.data)` when `data` is an array: JS numbers are truncated
to unsigned bytes (modulo 256); non-numeric elements coerce to 1/0 for
booleans and 0 otherwise (the `NaN → 0` path). -/
def jsToUint8 : CVal → Nat
  | CVal.vnum n => (n % 256).toNat
  | CVal.vbool true => 1
  | _ => 0

/-- Value of one base64 alphabet character, `none` for padding and anything
outside the alphabet. -/
def b64CharVal (c : Char) : Option Nat :=
  if ('A' ≤ c ∧ c ≤ 'Z') then some (c.toNat - 65)
  else if ('a' ≤ c ∧ c ≤ 'z') then some (c.toNat - 97 + 26)
  else if ('0' ≤ c ∧ c ≤ '9') then some (c.toNat - 48 + 52)
  else if c = '+' then some 62
  else if c = '/' then some 63
  else none

/-- Models Node `Buffer.from(s, 'base64')` used by the deserializer's legacy
branch: accumulate sextets, emit each completed byte. -/
def decodeBase64 (s : String) : List Nat :=
  let step : List Nat × Nat × Nat → Char → List Nat × Nat × Nat :=
    fun acc c =>
      match b64CharVal c with
      | none => acc
      | some v =>
          let buf := acc.2.1 * 64 + v
          let bits := acc.2.2 + 6
          if 8 ≤ bits then
            (acc.1 ++ [buf / 2 ^ (bits - 8)], buf % 2 ^ (bits - 8), bits - 8)
          else
            (acc.1, buf, bits)
  (s.toList.foldl step ([], 0, 0)).1

/-- The reviver's action on a tagged object's `data` value: `Buffer.from(data)`
for an array, `Buffer.from(data, 'base64')` for a string, otherwise the object
is returned unchanged. -/
def reviveData (fs : List (String × CVal)) : Option CVal → CVal
  | some (CVal.varr ds) => CVal.vbin (ds.map jsToUint8)
  | some (CVal.vstr s) => CVal.vbin (decodeBase64 s)
  | _ => CVal.vobj fs

/-- The reviver step of `deserializeFromDB` on an object whose children are
already revived (JSON.parse revives bottom-up). -/
def reviveObj (fs : List (String × CVal)) : CVal :=
  if isBufferTypeTagged (lookupC fs typeField) then reviveData fs (lookupC fs dataField)
  else CVal.vobj fs

mutual

/-- Embeds `deserializeFromDB` (whatsapp.server.ts lines 158-175): a
`JSON.parse(JSON.stringify(obj), reviver)` pass whose reviver (applied
bottom-up) turns every object with `type === 'Buffer'` and an array `data`
into `Buffer.from(data)`, and one with a string `data` into
`Buffer.from(data, 'base64')` (legacy format). -/
def deserializeFromDB : JVal → CVal
  | JVal.jnull => CVal.vnull
  | JVal.jbool b => CVal.vbool b
  | JVal.jnum n => CVal.vnum n
  | JVal.jstr s => CVal.vstr s
  | JVal.jarr xs => CVal.varr (deserializeList xs)
  | JVal.jobj fs =>
      reviveObj (deserializeFields fs)

def deserializeList : List JVal → List CVal
  | [] => []
  | x :: xs => deserializeFromDB x :: deserializeList xs

def deserializeFields : List (String × JVal) → List (String × CVal)
  | [] => []
  | (k, v) :: fs => (k, deserializeFromDB v) :: deserializeFields fs

end

/-- `data` is an array (Baileys format) or a string (legacy base64 format). -/
def isTriggerData : Option CVal → Bool
  | some (CVal.varr _) => true
  | some (CVal.vstr _) => true
  | _ => false

/-- The reviver's trigger condition of `deserializeFromDB`: an object with
`type === 'Buffer'` whose `data` is an array (Baileys format) or a string
(legacy base64 format). -/
def isBufferTrigger (fs : List (String × CVal)) : Bool :=
  isBufferTypeTagged (lookupC fs typeField) && isTriggerData (lookupC fs dataField)

mutual

/-- A credential value whose binary parts are genuine buffers: byte values
fit in a byte (true of every Buffer / Uint8Array), and no plain object is
shaped like the serialized-Buffer tag (a Buffer is neither an Array nor a
string, so genuine credential objects never trip the reviver). -/
def wellFormedCred : CVal → Bool
  | CVal.vnull => true
  | CVal.vbool _ => true
  | CVal.vnum _ => true
  | CVal.vstr _ => true
  | CVal.vbin bs => bs.all (fun b => decide (b < 256))
  | CVal.varr xs => wfList xs
  | CVal.vobj fs => !isBufferTrigger fs && wfFields fs

def wfList : List CVal → Bool
  | [] => true
  | x :: xs => wellFormedCred x && wfList xs

def wfFields : List (String × CVal) → Bool
  | [] => true
  | (_, v) :: fs => wellFormedCred v && wfFields fs

end

/-! ## Rate limiter and notification dispatcher
(whatsapp.server.ts lines 82-133 and 546-603) -/

/-- `DAILY_LIMIT` (whatsapp.server.ts line 82): WhatsApp unverified account limit. -/
def DAILY_LIMIT : Nat := 250

/-- The per-day quota snapshot returned by `checkRateLimit`. Time is epoch
milliseconds. -/
structure RateLimitInfo where
  dailyCount : Nat
  dailyLimit : Nat
  remaining : Nat
  resetAt : Nat
deriving Repr, DecidableEq

/-- `resetAt.setUTCHours(24, 0, 0, 0)` on the current date (whatsapp.server.ts
lines 93-94): the next UTC midnight strictly after the start of the current
UTC day, in epoch milliseconds. -/
def nextUtcMidnight (nowMs : Nat) : Nat :=
  (nowMs / 86400000 + 1) * 86400000

/-- Embeds `checkRateLimit` (whatsapp.server.ts lines 85-107). `currentCount`
is the value of the day-scoped Redis counter (0 when absent). Returns
`(allowed, info)` with `allowed = currentCount < DAILY_LIMIT` and
`remaining = Math.max(0, DAILY_LIMIT - currentCount)`. -/
def checkRateLimit (nowMs currentCount : Nat) : Bool × RateLimitInfo :=
  (decide (currentCount < DAILY_LIMIT),
   { dailyCount := currentCount
     dailyLimit := DAILY_LIMIT
     remaining := DAILY_LIMIT - currentCount
     resetAt := nextUtcMidnight nowMs })

/-- Result of `sendDeliveryNotification`; the rate-limit failure carries the
`resetAt` time interpolated into its error message. -/
inductive SendResult where
  | rateLimited (resetAt : Nat)
  | notConnected
  | socketUnavailable
  | sent (messageId : String)
  | sendFailed (message : String)
deriving Repr, DecidableEq

/-- The state `sendDeliveryNotification` reads: current time, the tenant's
day-scoped Redis counter, whether `this.socket` is set on the service
instance, whether the registry (`activeSockets`) holds a socket for the
tenant, the persisted `session.connected` flag, and the transport's behavior
on `sendMessage`. -/
structure SendEnv where
  nowMs : Nat
  dailyCount : Nat
  instanceSocket : Bool
  registrySocket : Bool
  sessionConnected : Bool
  transportOk : Bool
  transportMessageId : String
  transportErr : String
deriving Repr, DecidableEq

/-- Observable outcome of one `sendDeliveryNotification` call: its return
value, whether the transport was contacted (`socket.sendMessage` reached),
and whether the rate counter was incremented. -/
structure SendOutcome where
  result : SendResult
  transportContacted : Bool
  counterIncremented : Bool
deriving Repr, DecidableEq

/-- Embeds `WhatsAppService.sendDeliveryNotification` (whatsapp.server.ts
lines 546-603): (1) rate limit check, failing with the reset time; (2) if
the instance has no socket, consult the session record and the registry;
(3) send over the transport; on success increment the rate counter. -/
def sendDeliveryNotification (env : SendEnv) : SendOutcome :=
  let rateCheck := checkRateLimit env.nowMs env.dailyCount
  if !rateCheck.1 then
    { result := SendResult.rateLimited rateCheck.2.resetAt
      transportContacted := false
      counterIncremented := false }
  else if !env.instanceSocket && !env.sessionConnected then
    { result := SendResult.notConnected
      transportContacted := false
      counterIncremented := false }
  else if !env.instanceSocket && !env.registrySocket then
    { result := SendResult.socketUnavailable
      transportContacted := false
      counterIncremented := false }
  else if env.transportOk then
    { result := SendResult.sent env.transportMessageId
      transportContacted := true
      counterIncremented := true }
  else
    { result := SendResult.sendFailed env.transportErr
      transportContacted := true
      counterIncremented := false }

/-! ## Connection close handling
(whatsapp.server.ts lines 477-498, the `connection === "close"` branch) -/

/-- `DisconnectReason.loggedOut` of the Baileys library (an opaque external
dependency); the concrete numeric value is irrelevant, only its identity. -/
def DisconnectReason_loggedOut : Nat := 401

/-- `DisconnectReason.connectionClosed` of the Baileys library, a
representative non-logout close reason. -/
def DisconnectReason_connectionClosed : Nat := 428

/-- Observable effects of the close branch: `setDisconnected` called,
how many reconnect attempts were scheduled and with what delay, and whether
the tenant's entry was deleted from `activeSockets`. -/
structure CloseOutcome where
  markedDisconnected : Bool
  reconnectsScheduled : Nat
  reconnectDelayMs : Nat
  removedFromRegistry : Bool
deriving Repr, DecidableEq

/-- Embeds the `connection === "close"` branch of the `connection.update`
handler (whatsapp.server.ts lines 477-498). `statusCode` is
`lastDisconnect?.error?.output?.statusCode` (`none` when absent).
`shouldReconnect = statusCode !== DisconnectReason.loggedOut`; if so one
reconnect is scheduled with `setTimeout(..., 5000)`, otherwise the socket is
deleted from `activeSockets`. `setDisconnected` is always awaited first. -/
def handleConnectionClose (statusCode : Option Nat) : CloseOutcome :=
  let shouldReconnect := statusCode ≠ some DisconnectReason_loggedOut
  { markedDisconnected := true
    reconnectsScheduled := if shouldReconnect then 1 else 0
    reconnectDelayMs := if shouldReconnect then 5000 else 0
    removedFromRegistry := !shouldReconnect }

/-! ## Credential validation before socket creation
(whatsapp.server.ts lines 347-361 and 404-419) -/

/-- A nullable binary credential field; `some` is any Buffer (truthy in JS,
even when empty). -/
abbrev BinField := Option (List Nat)

/-- The noise key pair inside a credential record. -/
structure NoiseKey where
  privPart : BinField
  pubPart : BinField
deriving Repr, DecidableEq

/-- The slice of a Baileys credential record that `createSocket` validates:
the noise key, plus an opaque remainder standing for all other fields. -/
structure Creds where
  noiseKey : Option NoiseKey
  rest : List (String × CVal)
deriving Repr

/-- An auth state loaded from the database: credentials plus signal key store. -/
structure AuthState where
  creds : Creds
  keys : List (String × CVal)
deriving Repr

/-- A noise key with both parts present (any Buffer is truthy in JS). -/
def noiseKeyComplete : Option NoiseKey → Bool
  | none => false
  | some nk => nk.privPart.isSome && nk.pubPart.isSome

/-- `authState?.creds?.noiseKey?.private && authState?.creds?.noiseKey?.public`
(whatsapp.server.ts line 351): both parts of the noise key present. -/
def hasValidCreds : Option AuthState → Bool
  | none => false
  | some st => noiseKeyComplete st.creds.noiseKey

/-- Models Baileys `initAuthCreds()` (opaque external dependency): it always
returns a freshly generated, complete credential record whose noise key has
both private and public parts; the byte material is abstracted as a function
of a randomness seed. -/
def initAuthCreds (seed : Nat) : Creds :=
  { noiseKey := some { privPart := some [seed % 256], pubPart := some [(seed + 1) % 256] }
    rest := [] }

/-- The credential-selection logic of `createSocket` (whatsapp.server.ts
lines 347-361): keep the loaded auth state when it has a valid noise key,
otherwise replace it with fresh credentials, which are then passed to
`makeWASocket` (line 404). -/
def credsForSocket (seed : Nat) (loaded : Option AuthState) : Creds :=
  if hasValidCreds loaded then
    (match loaded with
     | some st => st.creds
     | none => initAuthCreds seed)
  else initAuthCreds seed

/-- A complete noise key pair: present with both parts. -/
def hasCompleteNoiseKey (c : Creds) : Bool :=
  noiseKeyComplete c.noiseKey

/-! ## Credential delta merge
(whatsapp.server.ts lines 501-506, the `creds.update` handler) -/

/-- JS object spread `\x7b ...old, ...upd \x7d` at the level of fields: keys of
`old` keep their position with updated values where `upd` overrides them,
and keys only in `upd` are appended. -/
def mergeSpread (old upd : List (String × CVal)) : List (String × CVal) :=
  (old.map (fun p =>
    match lookupC upd p.1 with
    | some v => (p.1, v)
    | none => p))
  ++ upd.filter (fun p => (lookupC old p.1).isNone)

/-- Observable effects of the `creds.update` handler: the new in-memory
credential object and the credential object passed to `saveAuthState`. -/
structure CredsUpdateOutcome where
  creds : List (String × CVal)
  savedCreds : Option (List (String × CVal))
deriving Repr

/-- Embeds the `creds.update` handler (whatsapp.server.ts lines 503-506):
`authState.creds = \x7b ...authState.creds, ...update \x7d` followed immediately
by `saveAuthState`. -/
def credsUpdateHandler (current upd : List (String × CVal)) : CredsUpdateOutcome :=
  let merged := mergeSpread current upd
  { creds := merged, savedCreds := some merged }

/-! ## `connect` as a single call
(whatsapp.server.ts lines 299-323) -/

/-- What `connect` reads: whether `activeSockets` has an entry for the
tenant, whether a session row exists, its `connected` flag and phone number. -/
structure ConnectEnv where
  registryHas : Bool
  sessionExists : Bool
  sessionConnected : Bool
  sessionPhone : Option String
deriving Repr, DecidableEq

/-- Observable outcome of one `connect` call: the status reported through
`onStatusChange` when short-circuiting (connected flag, phone number), and
whether `createSocket` was invoked (a new transport opened). -/
structure ConnectOutcome where
  reportedStatus : Option (Bool × Option String)
  socketCreated : Bool
deriving Repr, DecidableEq

/-- Embeds `WhatsAppService.connect` (whatsapp.server.ts lines 299-323):
if `activeSockets.has(shopId)` and the persisted session says `connected`,
report the current status and return; in every other case fall through to
`createSocket()`. -/
def connect (env : ConnectEnv) : ConnectOutcome :=
  if env.registryHas then
    if env.sessionExists && env.sessionConnected then
      { reportedStatus := some (true, env.sessionPhone), socketCreated := false }
    else
      { reportedStatus := none, socketCreated := true }
  else
    { reportedStatus := none, socketCreated := true }

/-! ## Concurrent `connect` calls: interleaving model
(whatsapp.server.ts lines 299-323 and 328-421)

Each `connect` call is split into its atomic segments between `await`
points: the synchronous prefix ending at the registry check, the
`prisma.whatsAppSession.findUnique` await (taken only when the registry had
an entry), the dynamic Baileys `import` await, the `getAuthState` await, and
the final synchronous segment that calls `makeWASocket` and
`activeSockets.set`. Two calls for the same tenant are interleaved by an
arbitrary schedule. -/

/-- Program counter of one in-flight `connect` call. -/
inductive TaskPC where
  | start
  | afterFind
  | afterImport
  | afterAuth
  | done
deriving Repr, DecidableEq

/-- Shared state of the process for one tenant: the `activeSockets` entry
(`some tid` identifies which call registered its socket last), the number of
`makeWASocket` calls (transport-open sequences initiated), the persisted
`connected` flag (not written by `connect` itself), and the number of
short-circuit status reports. -/
structure GState where
  registry : Option Nat
  opens : Nat
  sessionConnected : Bool
  shortCircuits : Nat
deriving Repr, DecidableEq

/-- One atomic segment of `connect` run by task `tid` (whatsapp.server.ts):
`start` runs lines 303-308 up to the `activeSockets.has` check; `afterFind`
resumes after the session read (lines 309-320); `afterImport` and
`afterAuth` resume inside `createSocket` after its awaits (lines 330, 347);
the `afterAuth` segment performs `makeWASocket` and `activeSockets.set`
(lines 404-421). -/
def stepTask (tid : Nat) : GState × TaskPC → GState × TaskPC
  | (g, TaskPC.start) =>
      if g.registry.isSome then (g, TaskPC.afterFind) else (g, TaskPC.afterImport)
  | (g, TaskPC.afterFind) =>
      if g.sessionConnected then
        ({ g with shortCircuits := g.shortCircuits + 1 }, TaskPC.done)
      else (g, TaskPC.afterImport)
  | (g, TaskPC.afterImport) => (g, TaskPC.afterAuth)
  | (g, TaskPC.afterAuth) =>
      ({ g with opens := g.opens + 1, registry := some tid }, TaskPC.done)
  | (g, TaskPC.done) => (g, TaskPC.done)

/-- Two concurrent `connect` calls (task 0 and task 1) over the shared state. -/
structure Sys where
  g : GState
  pc0 : TaskPC
  pc1 : TaskPC
deriving Repr, DecidableEq

/-- Advance one task chosen by the scheduler (`false` = task 0, `true` = task 1). -/
def stepSys (s : Sys) (choice : Bool) : Sys :=
  if choice then
    let r := stepTask 1 (s.g, s.pc1)
    { s with g := r.1, pc1 := r.2 }
  else
    let r := stepTask 0 (s.g, s.pc0)
    { s with g := r.1, pc0 := r.2 }

/-- Run a schedule (a list of scheduler choices). -/
def runSchedule (s : Sys) : List Bool → Sys
  | [] => s
  | c :: rest => runSchedule (stepSys s c) rest

/-- Initial state for a tenant with no live socket and no connected session:
empty registry, no transport opened yet, both calls at their start. -/
def initSys : Sys :=
  { g := { registry := none, opens := 0, sessionConnected := false, shortCircuits := 0 }
    pc0 := TaskPC.start
    pc1 := TaskPC.start }

/-- A schedule interleaving the two calls so that both pass the registry
check before either registers its socket. -/
def racingSchedule : List Bool := [false, true, false, false, true, true]

/-! ## `requestPairingCode`
(whatsapp.server.ts lines 657-725) -/

/-- The transport's behavior during the pairing window: it delivers a code
within the 30-second window, the `requestPairingCode` call on the socket
throws, or nothing arrives before the timeout fires. -/
inductive PairingTransport where
  | delivers (code : String)
  | throws
  | silent
deriving Repr, DecidableEq

/-- What `requestPairingCode` finds on entry: whether the service instance
itself holds a socket (`this.socket`), and whether `activeSockets` holds a
handle for the tenant (registered by any instance). -/
structure PairingEnv where
  instanceSocket : Bool
  registryHandle : Bool
  transport : PairingTransport
deriving Repr, DecidableEq

/-- The value resolved to the caller: `Promise<string | null>` which never
rejects (the trailing `.catch` returns `null`). -/
inductive PairingResult where
  | code (s : String)
  | nullResult
deriving Repr, DecidableEq

/-- Observable outcome of one `requestPairingCode` call. -/
structure PairingOutcome where
  result : PairingResult
  sessionDeleted : Bool
  registryCleared : Bool
  timeoutFired : Bool
  promiseRejected : Bool
deriving Repr, DecidableEq

/-- Embeds `WhatsAppService.requestPairingCode` (whatsapp.server.ts lines
657-725): always `deleteMany` the session row; close the socket and delete
the registry entry only when `this.socket` is non-null; then connect and
either resolve the code delivered within the 30-second window, or reject on
a transport error or on the 30-second timeout — every rejection is caught by
the trailing `.catch`, which logs and resolves `null`. -/
def requestPairingCode (env : PairingEnv) : PairingOutcome :=
  let sessionDeleted := true
  let registryCleared := env.instanceSocket
  match env.transport with
  | PairingTransport.delivers c =>
      { result := PairingResult.code c
        sessionDeleted
        registryCleared
        timeoutFired := false
        promiseRejected := false }
  | PairingTransport.throws =>
      { result := PairingResult.nullResult
        sessionDeleted
        registryCleared
        timeoutFired := false
        promiseRejected := false }
  | PairingTransport.silent =>
      { result := PairingResult.nullResult
        sessionDeleted
        registryCleared
        timeoutFired := true
        promiseRejected := false }

/-! ## Inbound button actions
(whatsapp.server.ts lines 771-846, `handleButtonClick`) -/

/-- A delivery agent row as read through `bill.assignedAgent`. -/
structure AgentRec where
  agentId : String
  name : String
  whatsappJid : Option String
deriving Repr, DecidableEq

/-- A delivery bill row: identifier, current status, history of statuses
pushed by callbacks, and the optionally assigned agent. -/
structure BillRec where
  billId : String
  status : String
  statusHistory : List String
  assignedAgent : Option AgentRec
deriving Repr, DecidableEq

/-- The `"status"` prefix of button callback tokens. -/
def statusTag : String := "status"

/-- Split a character list at every underscore, keeping empty segments —
the semantics of JS `String.prototype.split("_")` on the token's characters. -/
def splitUnderscoreChars : List Char → List (List Char)
  | [] => [[]]
  | c :: rest =>
      let r := splitUnderscoreChars rest
      if c = '_' then [] :: r
      else
        match r with
        | [] => [[c]]
        | g :: gs => (c :: g) :: gs

/-- `buttonId.split("_")` (whatsapp.server.ts line 773). -/
def jsSplitUnderscore (s : String) : List String :=
  (splitUnderscoreChars s.toList).map String.mk

/-- `prisma.deliveryBill.findUnique(\x7b where: \x7b id \x7d \x7d)` over the bill table. -/
def findBill (db : List BillRec) (billId : String) : Option BillRec :=
  db.find? (fun b => b.billId == billId)

/-- How one inbound button press was handled. The TS function returns `void`
and wraps its body in try/catch, so no outcome surfaces an error to the
transport. -/
inductive ClickOutcome where
  | malformedDropped
  | billNotFound
  | unauthorizedDropped
  | updated (billId newStatus : String)
deriving Repr, DecidableEq

/-- `true` for every outcome that drops the action without touching the bill. -/
def isDropOutcome : ClickOutcome → Bool
  | ClickOutcome.updated _ _ => false
  | _ => true

/-- Applies the status update of `handleButtonClick` (whatsapp.server.ts
lines 810-827) to the bill table: push the new status onto `statusHistory`
and set `status`. -/
def applyStatusUpdate (db : List BillRec) (billId newStatus : String) : List BillRec :=
  db.map (fun b =>
    if b.billId == billId then
      { b with status := newStatus, statusHistory := b.statusHistory ++ [newStatus] }
    else b)

/-- Embeds `handleButtonClick` (whatsapp.server.ts lines 771-846): split the
token on underscores; require exactly three fields with prefix `"status"`;
look up the bill; require an assigned agent whose `whatsappJid` equals the
sender; only then update the bill. Every other path logs and returns with
the table unchanged. -/
def handleButtonClick (db : List BillRec) (buttonId fromJid : String) :
    ClickOutcome × List BillRec :=
  match jsSplitUnderscore buttonId with
  | [p0, billId, newStatus] =>
      if p0 ≠ statusTag then (ClickOutcome.malformedDropped, db)
      else
        match findBill db billId with
        | none => (ClickOutcome.billNotFound, db)
        | some bill =>
            match bill.assignedAgent with
            | some agent =>
                if agent.whatsappJid = some fromJid then
                  (ClickOutcome.updated billId newStatus, applyStatusUpdate db billId newStatus)
                else (ClickOutcome.unauthorizedDropped, db)
            | none => (ClickOutcome.unauthorizedDropped, db)
  | _ => (ClickOutcome.malformedDropped, db)

/-- The three dropped-action conditions named by the inbound-action claim:
the token does not split into exactly three underscore-separated fields with
prefix `"status"`; or no bill exists for the parsed correlation id; or the
responding identity differs from the assigned agent's JID (including an
unassigned bill or an agent with no registered JID). -/
def droppedCondition (db : List BillRec) (buttonId fromJid : String) : Prop :=
  (∀ billId newStatus, jsSplitUnderscore buttonId ≠ [statusTag, billId, newStatus])
  ∨ (∃ billId newStatus, jsSplitUnderscore buttonId = [statusTag, billId, newStatus]
      ∧ findBill db billId = none)
  ∨ (∃ billId newStatus bill, jsSplitUnderscore buttonId = [statusTag, billId, newStatus]
      ∧ findBill db billId = some bill
      ∧ (match bill.assignedAgent with
         | some agent => agent.whatsappJid ≠ some fromJid
         | none => True))

/-! ## Concrete sample inputs used by witnesses -/

/-- A small credential record with genuine binary fields, including an empty
buffer and a byte at each end of the range. -/
def c1Sample : CVal :=
  CVal.vobj
    [("noiseKey", CVal.vobj [("private", CVal.vbin [0, 255]), ("public", CVal.vbin [])]),
     ("advSecretKey", CVal.vstr ("secret")),
     ("registered", CVal.vbool false),
     ("accountSyncCounter", CVal.vnum 0)]

/-- A dispatcher environment at the daily quota with no connection at all. -/
def c3SampleEnv : SendEnv :=
  { nowMs := 1760227200123
    dailyCount := 250
    instanceSocket := false
    registrySocket := false
    sessionConnected := false
    transportOk := true
    transportMessageId := "m1"
    transportErr := "network error" }

/-- A bill table with one bill assigned to an agent whose JID is `agentjid`. -/
def c9SampleDb : List BillRec :=
  [{ billId := "b1"
     status := "PENDING"
     statusHistory := []
     assignedAgent := some { agentId := "a1", name := "Alice", whatsappJid := some ("agentjid") } }]

theorem reviveObj_tag_arr (ds : List CVal) :
    reviveObj [(typeField, CVal.vstr bufferTag), (dataField, CVal.varr ds)] =
      CVal.vbin (ds.map jsToUint8) := rfl

theorem bytes_roundtrip (bs : List Nat) (h : bs.all (fun b => decide (b < 256)) = true) :
    (deserializeList (bs.map (fun b => JVal.jnum (Int.ofNat b)))).map jsToUint8 = bs := by
  induction bs with
  | nil => rfl
  | cons b rest ih =>
      simp only [List.all_cons, Bool.and_eq_true, decide_eq_true_eq] at h
      have hhead : jsToUint8 (CVal.vnum (Int.ofNat b)) = b := by
        show (((b : Int)) % 256).toNat = b
        omega
      simp only [List.map_cons, deserializeList, deserializeFromDB, List.map]
      rw [hhead, ih h.2]

theorem arrData_imp_triggerData (o : Option CVal) :
    isArrData o = true → isTriggerData o = true := by
  cases o with
  | none => simp [isArrData]
  | some v => cases v <;> simp [isArrData, isTriggerData]

theorem bufferLike_imp_trigger (fs : List (String × CVal)) :
    isBufferLikeFields fs = true → isBufferTrigger fs = true := by
  intro h
  unfold isBufferLikeFields at h
  unfold isBufferTrigger
  simp only [Bool.and_eq_true] at h
  rw [h.1, arrData_imp_triggerData _ h.2]
  rfl

theorem reviveData_not_trigger (fs : List (String × CVal)) (o : Option CVal)
    (h : isTriggerData o = false) : reviveData fs o = CVal.vobj fs := by
  cases o with
  | none => rfl
  | some v => cases v <;> simp_all [isTriggerData, reviveData]

theorem reviveObj_not_trigger (fs : List (String × CVal))
    (h : isBufferTrigger fs = false) : reviveObj fs = CVal.vobj fs := by
  unfold isBufferTrigger at h
  unfold reviveObj
  cases hty : isBufferTypeTagged (lookupC fs typeField) with
  | false => simp
  | true =>
      rw [hty] at h
      simp only [Bool.true_and] at h
      simp only [if_true]
      exact reviveData_not_trigger fs _ h

mutual

theorem rt_val : (c : CVal) → wellFormedCred c = true →
    deserializeFromDB (serializeForDB c) = c
  | CVal.vnull, _ => rfl
  | CVal.vbool _, _ => rfl
  | CVal.vnum _, _ => rfl
  | CVal.vstr _, _ => rfl
  | CVal.vbin bs, h => by
      show reviveObj [(typeField, CVal.vstr bufferTag),
        (dataField, CVal.varr (deserializeList (bs.map (fun b => JVal.jnum (Int.ofNat b)))))]
        = CVal.vbin bs
      rw [reviveObj_tag_arr, bytes_roundtrip bs (by simpa [wellFormedCred] using h)]
  | CVal.varr xs, h => by
      show CVal.varr (deserializeList (serializeList xs)) = CVal.varr xs
      rw [rt_list xs (by simpa [wellFormedCred] using h)]
  | CVal.vobj fs, h => by
      have hparts : isBufferTrigger fs = false ∧ wfFields fs = true := by
        have := h
        simp only [wellFormedCred, Bool.and_eq_true, Bool.not_eq_true'] at this
        exact this
      have hlike : isBufferLikeFields fs = false := by
        cases hl : isBufferLikeFields fs with
        | false => rfl
        | true => rw [bufferLike_imp_trigger fs hl] at hparts; simp at hparts
      show deserializeFromDB (serializeForDB (CVal.vobj fs)) = CVal.vobj fs
      rw [show serializeForDB (CVal.vobj fs) = JVal.jobj (serializeFields fs) by
        unfold serializeForDB; rw [hlike]; simp]
      show reviveObj (deserializeFields (serializeFields fs)) = CVal.vobj fs
      rw [rt_fields fs hparts.2, reviveObj_not_trigger fs hparts.1]

theorem rt_list : (xs : List CVal) → wfList xs = true →
    deserializeList (serializeList xs) = xs
  | [], _ => rfl
  | x :: xs, h => by
      have hx : wellFormedCred x = true ∧ wfList xs = true := by
        simpa [wfList, Bool.and_eq_true] using h
      show deserializeFromDB (serializeForDB x) :: deserializeList (serializeList xs) = x :: xs
      rw [rt_val x hx.1, rt_list xs hx.2]

theorem rt_fields : (fs : List (String × CVal)) → wfFields fs = true →
    deserializeFields (serializeFields fs) = fs
  | [], _ => rfl
  | (k, v) :: fs, h => by
      have hv : wellFormedCred v = true ∧ wfFields fs = true := by
        simpa [wfFields, Bool.and_eq_true] using h
      show (k, deserializeFromDB (serializeForDB v)) :: deserializeFields (serializeFields fs)
        = (k, v) :: fs
      rw [rt_val v hv.1, rt_fields fs hv.2]

end

/-! ## Claim theorems -/

/-- Claim C1: for every credential object whose binary values are genuine
Buffers / Uint8Arrays (of any length, including empty), serializing it with
`serializeForDB` and then deserializing with `deserializeFromDB` yields the
identical object, hence byte-identical binary values restored as the Buffer
type the transport library expects. -/
theorem c1_serialize_deserialize_roundtrip (c : CVal) (h : wellFormedCred c = true) :
    deserializeFromDB (serializeForDB c) = c :=
  rt_val c h

/-- Witness for C1 at a concrete credential record with an empty and a
non-empty binary field. -/
theorem c1_serialize_deserialize_roundtrip_witness :
    wellFormedCred c1Sample = true
    ∧ deserializeFromDB (serializeForDB c1Sample) = c1Sample :=
  ⟨by rfl, c1_serialize_deserialize_roundtrip c1Sample (by rfl)⟩

/-- Claim C3: when the tenant's day-scoped counter has reached the daily
limit, `sendDeliveryNotification` returns the rate-limit failure carrying
the next-UTC-midnight reset time, contacts no transport and increments no
counter — regardless of connection state, so the rate-limit precondition is
checked before the connection-existence precondition; moreover `allowed` is
true iff `dailyCount < dailyLimit` and the limit is the constant 250. -/
theorem c3_rate_limit_enforced (env : SendEnv) (h : DAILY_LIMIT ≤ env.dailyCount) :
    sendDeliveryNotification env =
      { result := SendResult.rateLimited (nextUtcMidnight env.nowMs)
        transportContacted := false
        counterIncremented := false }
    ∧ (∀ now c, ((checkRateLimit now c).1 = true ↔ c < DAILY_LIMIT))
    ∧ DAILY_LIMIT = 250 := by
  refine ⟨?_, fun now c => by simp [checkRateLimit], rfl⟩
  have hdec : decide (env.dailyCount < DAILY_LIMIT) = false := by
    simp only [decide_eq_false_iff_not, not_lt]
    exact h
  simp [sendDeliveryNotification, checkRateLimit, hdec]

/-- Witness for C3: a tenant at 250 sends with no connection at all and
still gets the rate-limit failure. -/
theorem c3_rate_limit_enforced_witness :
    DAILY_LIMIT ≤ c3SampleEnv.dailyCount
    ∧ (sendDeliveryNotification c3SampleEnv =
        { result := SendResult.rateLimited (nextUtcMidnight c3SampleEnv.nowMs)
          transportContacted := false
          counterIncremented := false }
      ∧ (∀ now c, ((checkRateLimit now c).1 = true ↔ c < DAILY_LIMIT))
      ∧ DAILY_LIMIT = 250) :=
  ⟨by decide, c3_rate_limit_enforced c3SampleEnv (by decide)⟩

/-- Claim C4: on a close event, an explicit-logout reason schedules no
reconnect (terminal), and every other reason code (including an absent one)
schedules exactly one reconnect attempt after the fixed 5-second delay. -/
theorem c4_close_reconnect_policy (statusCode : Option Nat) :
    (handleConnectionClose statusCode).reconnectsScheduled =
      (if statusCode = some DisconnectReason_loggedOut then 0 else 1)
    ∧ (handleConnectionClose statusCode).reconnectDelayMs =
      (if statusCode = some DisconnectReason_loggedOut then 0 else 5000) := by
  by_cases h : statusCode = some DisconnectReason_loggedOut <;>
    simp [handleConnectionClose, h]

/-- Counterexample to claim C5: on a close with a non-logout reason (here
`DisconnectReason.connectionClosed`, 428) the session is marked disconnected
but the tenant's handle is NOT removed from `activeSockets` — the deletion
happens only in the logout branch (whatsapp.server.ts lines 491-497). -/
theorem c5_close_keeps_registry_counterexample :
    (handleConnectionClose (some DisconnectReason_connectionClosed)).markedDisconnected = true
    ∧ (handleConnectionClose (some DisconnectReason_connectionClosed)).removedFromRegistry
        = false := by
  decide

/-- Claim C5 as amended: on every close event the session is marked
disconnected, but the handle is removed from the registry only when the
disconnect reason is the explicit logout; for any other reason the stale
handle stays registered (until a later reconnect overwrites it). -/
theorem c5_close_always_marks_disconnected (statusCode : Option Nat) :
    (handleConnectionClose statusCode).markedDisconnected = true
    ∧ (handleConnectionClose statusCode).removedFromRegistry =
        decide (statusCode = some DisconnectReason_loggedOut) := by
  by_cases h : statusCode = some DisconnectReason_loggedOut <;>
    simp [handleConnectionClose, h]

/-- Claim C6: whatever auth state is loaded (absent, or lacking either part
of the noise key pair), the credentials handed to `makeWASocket` always
contain a complete noise key pair — invalid ones are replaced by freshly
generated credentials first. -/
theorem c6_socket_creds_complete (seed : Nat) (loaded : Option AuthState) :
    hasCompleteNoiseKey (credsForSocket seed loaded) = true := by
  unfold credsForSocket
  by_cases h : hasValidCreds loaded = true
  · rw [if_pos h]
    cases loaded with
    | none => simp [hasValidCreds] at h
    | some st =>
        simp only [hasValidCreds] at h
        exact h
  · rw [if_neg h]
    rfl

theorem stepTask_session (tid : Nat) (g : GState) (pc : TaskPC) :
    (stepTask tid (g, pc)).1.sessionConnected = g.sessionConnected := by
  cases pc <;> simp [stepTask] <;> split <;> rfl

theorem stepTask_registry_mono (tid : Nat) (g : GState) (pc : TaskPC)
    (h : g.registry.isSome = true) : (stepTask tid (g, pc)).1.registry.isSome = true := by
  cases pc <;> simp [stepTask] <;> first
    | exact h
    | (split <;> simp [h])

theorem stepTask_done_registry (tid : Nat) (g : GState) (pc : TaskPC)
    (hs : g.sessionConnected = false) (h : (stepTask tid (g, pc)).2 = TaskPC.done) :
    pc = TaskPC.done ∨ (stepTask tid (g, pc)).1.registry.isSome = true := by
  cases pc with
  | start => simp [stepTask] at h; revert h; split <;> simp
  | afterFind => simp [stepTask, hs] at h
  | afterImport => simp [stepTask] at h
  | afterAuth => right; simp [stepTask]
  | done => left; rfl

theorem stepSys_inv (s : Sys) (c : Bool)
    (h1 : s.g.sessionConnected = false)
    (h2 : s.pc0 = TaskPC.done → s.g.registry.isSome = true)
    (h3 : s.pc1 = TaskPC.done → s.g.registry.isSome = true) :
    (stepSys s c).g.sessionConnected = false
    ∧ ((stepSys s c).pc0 = TaskPC.done → (stepSys s c).g.registry.isSome = true)
    ∧ ((stepSys s c).pc1 = TaskPC.done → (stepSys s c).g.registry.isSome = true) := by
  cases c with
  | false =>
      refine ⟨?_, ?_, ?_⟩
      · show (stepTask 0 (s.g, s.pc0)).1.sessionConnected = false
        rw [stepTask_session]; exact h1
      · intro hdone
        rcases stepTask_done_registry 0 s.g s.pc0 h1 hdone with hold | hnew
        · exact stepTask_registry_mono 0 s.g s.pc0 (h2 hold)
        · exact hnew
      · intro hdone
        exact stepTask_registry_mono 0 s.g s.pc0 (h3 hdone)
  | true =>
      refine ⟨?_, ?_, ?_⟩
      · show (stepTask 1 (s.g, s.pc1)).1.sessionConnected = false
        rw [stepTask_session]; exact h1
      · intro hdone
        exact stepTask_registry_mono 1 s.g s.pc1 (h2 hdone)
      · intro hdone
        rcases stepTask_done_registry 1 s.g s.pc1 h1 hdone with hold | hnew
        · exact stepTask_registry_mono 1 s.g s.pc1 (h3 hold)
        · exact hnew

theorem runSchedule_inv (sched : List Bool) (s : Sys)
    (h1 : s.g.sessionConnected = false)
    (h2 : s.pc0 = TaskPC.done → s.g.registry.isSome = true)
    (h3 : s.pc1 = TaskPC.done → s.g.registry.isSome = true) :
    ((runSchedule s sched).pc0 = TaskPC.done → (runSchedule s sched).g.registry.isSome = true)
    ∧ ((runSchedule s sched).pc1 = TaskPC.done →
        (runSchedule s sched).g.registry.isSome = true) := by
  induction sched generalizing s with
  | nil => exact ⟨h2, h3⟩
  | cons c rest ih =>
      obtain ⟨g1, g2, g3⟩ := stepSys_inv s c h1 h2 h3
      exact ih (stepSys s c) g1 g2 g3

/-- Counterexample to claim C2: the interleaving `racingSchedule` completes
two concurrent `connect` calls for the same tenant from the fresh initial
state, and the two calls together initiate TWO transport-open sequences
(two `makeWASocket` calls) — the code has no per-tenant serialization point
between the `activeSockets.has` check and `activeSockets.set`. -/
theorem c2_two_transport_opens_counterexample :
    (runSchedule initSys racingSchedule).pc0 = TaskPC.done
    ∧ (runSchedule initSys racingSchedule).pc1 = TaskPC.done
    ∧ (runSchedule initSys racingSchedule).g.opens = 2
    ∧ ¬((runSchedule initSys racingSchedule).g.opens ≤ 1) := by
  decide

/-- Claim C2 as amended: after any schedule that completes both concurrent
`connect` calls from the fresh initial state, the registry holds exactly one
live handle for the tenant (it is a per-tenant map entry, so the later
`activeSockets.set` overwrites the earlier); but more than one transport-open
sequence may be initiated, as the counterexample shows. -/
theorem c2_single_registered_handle (sched : List Bool)
    (h0 : (runSchedule initSys sched).pc0 = TaskPC.done)
    (_h1 : (runSchedule initSys sched).pc1 = TaskPC.done) :
    (runSchedule initSys sched).g.registry.isSome = true :=
  (runSchedule_inv sched initSys rfl (by intro h; cases h) (by intro h; cases h)).1 h0

/-- Witness for the amended C2 at the racing schedule. -/
theorem c2_single_registered_handle_witness :
    (runSchedule initSys racingSchedule).pc0 = TaskPC.done
    ∧ (runSchedule initSys racingSchedule).pc1 = TaskPC.done
    ∧ (runSchedule initSys racingSchedule).g.registry.isSome = true :=
  ⟨by decide, by decide,
   c2_single_registered_handle racingSchedule (by decide) (by decide)⟩

theorem lookupC_append (xs ys : List (String × CVal)) (k : String) :
    lookupC (xs ++ ys) k =
      (match lookupC xs k with
       | some v => some v
       | none => lookupC ys k) := by
  induction xs with
  | nil => rfl
  | cons p rest ih =>
      obtain ⟨k', v⟩ := p
      by_cases hk : k' = k <;> simp [lookupC, hk, ih]

theorem lookupC_mapOverride (old upd : List (String × CVal)) (k : String) :
    lookupC (old.map (fun p =>
      match lookupC upd p.1 with
      | some v => (p.1, v)
      | none => p)) k =
      (match lookupC old k with
       | none => none
       | some v =>
           match lookupC upd k with
           | some u => some u
           | none => some v) := by
  induction old with
  | nil => rfl
  | cons p rest ih =>
      obtain ⟨k', v⟩ := p
      by_cases hk : k' = k
      · subst hk
        cases hu : lookupC upd k' <;> simp [lookupC, hu]
      · cases hu : lookupC upd k' <;> simp [lookupC, hk, hu, ih]

theorem lookupC_filterNew (old upd : List (String × CVal)) (k : String) :
    lookupC (upd.filter (fun p => (lookupC old p.1).isNone)) k =
      (match lookupC old k with
       | some _ => none
       | none => lookupC upd k) := by
  induction upd with
  | nil => cases lookupC old k <;> rfl
  | cons p rest ih =>
      obtain ⟨k', u⟩ := p
      rw [List.filter_cons]
      by_cases hk : k' = k
      · subst hk
        cases ho : lookupC old k' with
        | some v =>
            have hpred : (lookupC old k').isNone = false := by rw [ho]; rfl
            rw [ho] at ih
            simpa [hpred] using ih
        | none =>
            have hpred : (lookupC old k').isNone = true := by rw [ho]; rfl
            simp [hpred, lookupC]
      · cases hpred : (lookupC old k').isNone with
        | true => simpa [hpred, lookupC, hk] using ih
        | false => simpa [hpred, lookupC, hk] using ih

theorem lookupC_mergeSpread (old upd : List (String × CVal)) (k : String) :
    lookupC (mergeSpread old upd) k =
      (match lookupC upd k with
       | some v => some v
       | none => lookupC old k) := by
  unfold mergeSpread
  rw [lookupC_append, lookupC_mapOverride, lookupC_filterNew]
  cases ho : lookupC old k <;> cases hu : lookupC upd k <;> simp

/-- Claim C7: merging a credential delta with the spread
`\x7b ...authState.creds, ...update \x7d` agrees with the delta on every field
the delta carries and with the previous credentials on every field the delta
omits (no field is overwritten or dropped), and the merged object is exactly
what is immediately passed to `saveAuthState`. -/
theorem c7_creds_delta_merge (current upd : List (String × CVal)) (k : String) :
    lookupC (credsUpdateHandler current upd).creds k =
      (match lookupC upd k with
       | some v => some v
       | none => lookupC current k)
    ∧ (credsUpdateHandler current upd).savedCreds =
        some (credsUpdateHandler current upd).creds := by
  exact ⟨lookupC_mergeSpread current upd k, rfl⟩

/-- Counterexample to claim C8: with the service instance holding no socket
(as every factory-created instance does), a live registry handle present,
and no pairing code arriving within the 30-second window, the internal
timeout fires but the promise still resolves `null` — no timeout error is
surfaced to the caller — and the registry handle was never torn down. -/
theorem c8_timeout_not_surfaced_counterexample :
    (requestPairingCode
      { instanceSocket := false, registryHandle := true,
        transport := PairingTransport.silent }).timeoutFired = true
    ∧ (requestPairingCode
      { instanceSocket := false, registryHandle := true,
        transport := PairingTransport.silent }).result = PairingResult.nullResult
    ∧ (requestPairingCode
      { instanceSocket := false, registryHandle := true,
        transport := PairingTransport.silent }).promiseRejected = false
    ∧ (requestPairingCode
      { instanceSocket := false, registryHandle := true,
        transport := PairingTransport.silent }).registryCleared = false := by
  decide

/-- Claim C8 as amended: `requestPairingCode` always deletes the persisted
credential record first, but tears down a handle only when the service
instance itself holds one (a registry handle set by another instance
survives); a code delivered within the 30-second window is returned, and in
every other case — including the 30-second timeout — the rejection is caught
and `null` is resolved to the caller, never an error. -/
theorem c8_pairing_behavior (env : PairingEnv) :
    requestPairingCode env =
      { result :=
          (match env.transport with
           | PairingTransport.delivers c => PairingResult.code c
           | _ => PairingResult.nullResult)
        sessionDeleted := true
        registryCleared := env.instanceSocket
        timeoutFired := decide (env.transport = PairingTransport.silent)
        promiseRejected := false } := by
  obtain ⟨inst, reg, tr⟩ := env
  cases tr <;> rfl

/-- Claim C9: an inbound button action whose token is malformed (wrong field
count or wrong prefix), or whose correlation id matches no bill, or whose
responding identity differs from the assigned agent's registered JID, is
dropped: the bill table is unchanged and the outcome is one of the logged
drop outcomes (the handler returns `void` inside try/catch, surfacing no
error to the transport). -/
theorem c9_unauthorized_or_malformed_dropped (db : List BillRec)
    (buttonId fromJid : String) (h : droppedCondition db buttonId fromJid) :
    (handleButtonClick db buttonId fromJid).2 = db
    ∧ isDropOutcome (handleButtonClick db buttonId fromJid).1 = true := by
  unfold handleButtonClick
  rcases h with h | ⟨b, s, hsplit, hfind⟩ | ⟨b, s, bill, hsplit, hfind, hagent⟩
  · rcases hsp : jsSplitUnderscore buttonId with - | ⟨p0, - | ⟨b, - | ⟨s, - | ⟨x, rest⟩⟩⟩⟩
    · simp [hsp, isDropOutcome]
    · simp [hsp, isDropOutcome]
    · simp [hsp, isDropOutcome]
    · have hp0 : p0 ≠ statusTag := fun he => h b s (by rw [hsp, he])
      simp [hsp, hp0, isDropOutcome]
    · simp [hsp, isDropOutcome]
  · simp [hsplit, hfind, isDropOutcome]
  · cases hag : bill.assignedAgent with
    | none => simp [hsplit, hfind, hag, isDropOutcome]
    | some agent =>
        rw [hag] at hagent
        simp [hsplit, hfind, hag, hagent, isDropOutcome]

/-- Witness for C9: a pressed button referencing an existing bill but coming
from a JID other than the assigned agent's is dropped without touching the
bill table. -/
theorem c9_unauthorized_or_malformed_dropped_witness :
    droppedCondition c9SampleDb ("status_b1_DELIVERED") ("intruderjid")
    ∧ (handleButtonClick c9SampleDb ("status_b1_DELIVERED") ("intruderjid")).2 = c9SampleDb
    ∧ isDropOutcome
        (handleButtonClick c9SampleDb ("status_b1_DELIVERED") ("intruderjid")).1 = true := by
  have hd : droppedCondition c9SampleDb ("status_b1_DELIVERED") ("intruderjid") := by
    refine Or.inr (Or.inr ⟨"b1", "DELIVERED", _, by rfl, rfl, ?_⟩)
    show some ("agentjid") ≠ some ("intruderjid")
    decide
  obtain ⟨hdb, hout⟩ :=
    c9_unauthorized_or_malformed_dropped c9SampleDb ("status_b1_DELIVERED") ("intruderjid") hd
  exact ⟨hd, hdb, hout⟩

/-- Counterexample to claim C10: with a handle in the registry
(`activeSockets.has` true) but the persisted session not marked connected —
the situation of a socket mid-pairing — `connect` does NOT short-circuit: it
reports nothing and creates a new socket (whatsapp.server.ts lines 308-322). -/
theorem c10_live_handle_not_short_circuited_counterexample :
    connect { registryHas := true, sessionExists := true,
              sessionConnected := false, sessionPhone := none } =
      { reportedStatus := none, socketCreated := true } := by
  decide

/-- Claim C10 as amended: `connect` short-circuits — reporting the current
status and opening no new transport — exactly when the registry holds a
handle AND the persisted session is marked connected; in every other case
(including a registered handle with a not-yet-connected session) it creates
a new socket and reports nothing. -/
theorem c10_connect_short_circuit (env : ConnectEnv) :
    (connect env).socketCreated =
      !(env.registryHas && (env.sessionExists && env.sessionConnected))
    ∧ (connect env).reportedStatus =
      (if env.registryHas && (env.sessionExists && env.sessionConnected)
       then some (true, env.sessionPhone)
       else none) := by
  obtain ⟨rh, se, sc, ph⟩ := env
  cases rh <;> cases se <;> cases sc <;> simp [connect]

end WhatsApp
